import Mathlib

/-!
Shallow embedding of the asin-manager backend's asynchronous job-and-progress
subsystem, translated from the TypeScript sources:

* `src/backend/src/services/processing.service.ts` — Redis-backed progress
  store: `startProcessing`, `updateJobProgress`, `markJobCompleted`,
  `markJobFailed`, `cancelJob`, `isJobCancelled`, `markJobCancelled`.
* `src/backend/src/lib/amazonApi.ts` — `checkAsinEligibility` retry loop and
  response classification.
* `src/backend/src/workers/asinProcessor.worker.ts` — `processAsinJob`
  batch loop and the per-ASIN upsert of `SellerStatus`.
* `src/backend/src/repositories/products.repository.ts` —
  `findAsinsForProcessing` and the bulk `upsertMany` (raw-SQL
  `ON CONFLICT ... DO UPDATE SET col = EXCLUDED.col` variant).
* `src/backend/src/lib/keepaCsvParser.ts` — `parseNumeric` and `parseValue`
  field coercion and the per-row error policy.
* `src/backend/src/middleware/errorHandler.ts` — the `AppError` / generic
  `Error` taxonomy and the HTTP status each is mapped to.

Conventions: JavaScript numbers are modelled as `ℚ` (all quantities involved
are exact decimals; floating point is not modelled), timestamps as `Nat`,
Redis as an explicit state record threaded through each operation.  The
worker's intra-batch `Promise.all` concurrency is modelled as sequential
per-item execution, matching the spec's single-worker scheduling model (§5):
each item's completion increments the shared counter and writes progress.
-/

namespace AsinManager

/-- JavaScript `Math.round` on a (non-NaN) number: round half toward
positive infinity, i.e. `⌊x + 1/2⌋`. -/
def mathRound (q : ℚ) : ℤ := ⌊q + 1 / 2⌋

/-! ## Progress store (`processing.service.ts`)

A job-status document as stored (JSON-serialised) under
`asin:processing:status:<jobId>`.  `new Date().toISOString()` timestamps are
modelled by the flag `completedAtSet` (wall-clock time is immaterial to the
claims; only whether `completedAt` was written matters). -/

structure JobStatusRec where
  jobId : String
  status : String
  total : Nat
  processed : Nat
  percentage : ℤ
  error : Option String
  completedAtSet : Bool
  asins : List String
  deriving Repr, DecidableEq

/-- The Redis keyspace used by the processing service:
`ACTIVE_JOB_KEY`, the per-job status documents, and the per-job cancel
flags (`CANCEL_FLAG_PREFIX` keys holding `"1"`).  TTLs are not modelled
(no claim depends on expiry). -/
structure RedisState where
  active : Option String
  store : List (String × JobStatusRec)
  cancel : List String
  deriving Repr, DecidableEq

/-- Redis `GET` of a status document. -/
def storeGet (s : List (String × JobStatusRec)) (k : String) : Option JobStatusRec :=
  (s.find? (fun p => p.1 = k)).map (fun p => p.2)

/-- Redis `SETEX` of a status document (overwrite). -/
def storeSet (s : List (String × JobStatusRec)) (k : String) (v : JobStatusRec) :
    List (String × JobStatusRec) :=
  (k, v) :: s.filter (fun p => ¬ p.1 = k)

/-- `getJobStatus`: reads and parses the status document.  The summary the
source attaches for running/completed jobs is a separate DB read that does
not alter the stored document, so it is omitted here. -/
def getJobStatus (r : RedisState) (jobId : String) : Option JobStatusRec :=
  storeGet r.store jobId

/-- The `status` field of a stored job document, as observed by pollers. -/
def jobStatusField (r : RedisState) (jobId : String) : Option String :=
  (getJobStatus r jobId).map (fun st => st.status)

/-- `Math.round((processed / total) * 100)` as computed by
`updateJobProgress` (and `markJobCompleted` effectively stores 100).
For `total = 0`, `ℚ` division yields `0` where JS would produce `NaN`;
every claim about this function assumes `total ≥ 1`. -/
def computePercentage (processed total : Nat) : ℤ :=
  mathRound ((processed : ℚ) / (total : ℚ) * 100)

/-- `updateJobProgress`: no-op when the document is missing, otherwise
rewrites `processed` and the derived `percentage`. -/
def updateJobProgress (r : RedisState) (jobId : String) (processed total : Nat) :
    RedisState :=
  match storeGet r.store jobId with
  | none => r
  | some st =>
      let st2 := { st with processed := processed
                           percentage := computePercentage processed total }
      { r with store := storeSet r.store jobId st2 }

/-- `markJobCompleted`: unconditionally sets `status := "completed"`,
`percentage := 100`, stamps `completedAt`, and re-arms `ACTIVE_JOB_KEY`
with a short TTL (the pointer still holds this job id afterwards). -/
def markJobCompleted (r : RedisState) (jobId : String) : RedisState :=
  match storeGet r.store jobId with
  | none => r
  | some st =>
      let st2 := { st with status := "completed", percentage := 100, completedAtSet := true }
      { r with store := storeSet r.store jobId st2, active := some jobId }

/-- `markJobFailed`: unconditionally sets `status := "failed"`, records the
error message, stamps `completedAt`, and deletes `ACTIVE_JOB_KEY`. -/
def markJobFailed (r : RedisState) (jobId : String) (error : String) : RedisState :=
  match storeGet r.store jobId with
  | none => r
  | some st =>
      let st2 := { st with status := "failed", error := some error, completedAtSet := true }
      { r with store := storeSet r.store jobId st2, active := none }

/-- `cancelJob`: sets the advisory cancel flag when the active job is
running; returns `(cancelled, jobId?)`. -/
def cancelJob (r : RedisState) : RedisState × (Bool × Option String) :=
  match r.active with
  | none => (r, (false, none))
  | some jobId =>
      match getJobStatus r jobId with
      | none => (r, (false, none))
      | some st =>
          if st.status = "running" then
            ({ r with cancel := jobId :: r.cancel }, (true, some jobId))
          else
            (r, (false, none))

/-- `isJobCancelled`: tests the cancel flag. -/
def isJobCancelled (r : RedisState) (jobId : String) : Bool :=
  r.cancel.contains jobId

/-- `markJobCancelled`: records a cancellation as `status := "failed"` with
a synthesised error message, deletes the active pointer and the flag. -/
def markJobCancelled (r : RedisState) (jobId : String) (processed total : Nat) :
    RedisState :=
  match storeGet r.store jobId with
  | none => r
  | some st =>
      let msg := "Cancelled by user (" ++ toString processed ++ "/" ++
        toString total ++ " processed)"
      let st2 := { st with status := "failed", error := some msg, completedAtSet := true }
      { r with store := storeSet r.store jobId st2, active := none,
               cancel := r.cancel.filter (fun j => ¬ j = jobId) }

/-- One invocation of a progress-store mutator, for quantifying over
arbitrary mutator sequences against a fixed job id. -/
inductive Mutation where
  | progress (processed total : Nat)
  | complete
  | fail (msg : String)
  | cancel (processed total : Nat)
  deriving Repr, DecidableEq

/-- Apply one mutator to the store under a fixed job id. -/
def applyMutation (r : RedisState) (jobId : String) : Mutation → RedisState
  | .progress p t => updateJobProgress r jobId p t
  | .complete => markJobCompleted r jobId
  | .fail m => markJobFailed r jobId m
  | .cancel p t => markJobCancelled r jobId p t

/-- Apply a sequence of mutators left to right. -/
def applyMutations (r : RedisState) (jobId : String) (ms : List Mutation) : RedisState :=
  ms.foldl (fun s m => applyMutation s jobId m) r

/-- The job document's `status` field (when the document exists) is one of
the three values the service ever writes. -/
def statusWF (r : RedisState) (jobId : String) : Prop :=
  match jobStatusField r jobId with
  | none => True
  | some s => s = "running" ∨ s = "completed" ∨ s = "failed"

instance (r : RedisState) (jobId : String) : Decidable (statusWF r jobId) := by
  unfold statusWF
  cases jobStatusField r jobId with
  | none => exact inferInstanceAs (Decidable True)
  | some s => exact inferInstanceAs (Decidable (_ ∨ _ ∨ _))

/-! ## External lookup client (`amazonApi.ts`)

`checkAsinEligibility` issues one signed request per attempt; the remote
service's behaviour is modelled as an oracle list of per-attempt outcomes,
consumed left to right.  A thrown axios error carries an optional HTTP
status (`error?.response?.status`); an LWA token failure (which the shared
try/catch also intercepts) is an `httpError none`. -/

/-- The domain statuses of `SellerStatusResult`. -/
inductive SellerStatusResult where
  | allowed
  | gated
  | requires_invoice
  | restricted
  | unknown
  deriving Repr, DecidableEq

/-- One entry of the SP-API `restrictions` array: its `conditionType` and
the first reason's code (`reasons?.[0]?.reasonCode`, absent when the
`reasons` array is missing or empty). -/
structure Restriction where
  conditionType : String
  reasonCode : Option String
  deriving Repr, DecidableEq

/-- Outcome of one HTTP attempt against the restrictions endpoint. -/
inductive ApiAttempt where
  | success (restrictions : List Restriction)
  | httpError (statusCode : Option Nat)
  deriving Repr, DecidableEq

/-- The response-classification half of `checkAsinEligibility`
(lines 127–158 of `amazonApi.ts`): no restrictions or no `new_new`
condition or no reason code ⇒ `allowed`; otherwise map the reason code,
defaulting to `unknown`. -/
def classifyResponse (restrictions : List Restriction) : SellerStatusResult :=
  if restrictions.isEmpty then .allowed
  else
    match restrictions.find? (fun rc => rc.conditionType = "new_new") with
    | none => .allowed
    | some newCondition =>
        match newCondition.reasonCode with
        | none => .allowed
        | some "APPROVAL_REQUIRED" => .gated
        | some "NOT_ELIGIBLE" => .restricted
        | some "ASIN_NOT_FOUND" => .unknown
        | some _ => .unknown

/-- The retry guard `(statusCode === 429 || (statusCode && statusCode >= 500))`:
a missing status is falsy, as is the (never occurring) status 0. -/
def isRetryableStatus : Option Nat → Bool
  | none => false
  | some c => c = 429 || (¬ c = 0 && 500 ≤ c)

/-- A failed attempt that the client considers retryable. -/
def isRetryableFailure : ApiAttempt → Bool
  | .success _ => false
  | .httpError c => isRetryableStatus c

/-- `MAX_RETRIES` from `amazonApi.ts`. -/
def MAX_RETRIES : Nat := 3

/-- `checkAsinEligibility asin retries` with the remote outcomes supplied as
`attempts` (the `asin` string and the backoff `sleep` do not affect the
result and are omitted).  The surrounding try/catch either recurses with
`retries - 1` on a retryable error with retries left, or — the
`// Final failure` branch — logs and returns `"unknown"`.  The source
function has no other exit: it never throws to its caller.  An exhausted
oracle (empty `attempts`) cannot occur on runs supplying one outcome per
attempt; it is mapped to the final-failure result. -/
def checkAsinEligibility : List ApiAttempt → Nat → SellerStatusResult
  | [], _ => .unknown
  | .success restrictions :: _, _ => classifyResponse restrictions
  | .httpError statusCode :: rest, retries =>
      if isRetryableStatus statusCode && 0 < retries then
        checkAsinEligibility rest (retries - 1)
      else
        .unknown

/-! ## Record store and worker (`products.repository.ts`,
`asinProcessor.worker.ts`) -/

/-- A `SellerStatus` row: the classification and the `checked_at`
timestamp (`none` models SQL `NULL`). -/
structure SellerStatusRow where
  status : SellerStatusResult
  checkedAt : Option Nat
  deriving Repr, DecidableEq

/-- The relational store as seen by the eligibility pipeline: the products
table (ASINs ordered by `created_at` descending, matching the repository's
`orderBy created_at desc` read) and the `SellerStatus` table keyed by ASIN. -/
structure Db where
  products : List String
  sellerStatus : List (String × SellerStatusRow)
  deriving Repr, DecidableEq

/-- Lookup in the `SellerStatus` table. -/
def sellerStatusGet (rows : List (String × SellerStatusRow)) (asin : String) :
    Option SellerStatusRow :=
  (rows.find? (fun p => p.1 = asin)).map (fun p => p.2)

/-- `prisma.sellerStatus.upsert` keyed by ASIN. -/
def sellerStatusUpsert (rows : List (String × SellerStatusRow)) (asin : String)
    (row : SellerStatusRow) : List (String × SellerStatusRow) :=
  (asin, row) :: rows.filter (fun p => ¬ p.1 = asin)

/-- `findAsinsForProcessing` (`products.repository.ts`): `"unchecked"`
selects products with no `SellerStatus` row or a `NULL` `checked_at`;
`"gated"` selects by current status; otherwise the `100`/`200` most
recently created. -/
def findAsinsForProcessing (db : Db) (mode : String) : List String :=
  if mode = "unchecked" then
    db.products.filter (fun a =>
      match sellerStatusGet db.sellerStatus a with
      | none => true
      | some row => row.checkedAt = none)
  else if mode = "gated" then
    db.products.filter (fun a =>
      match sellerStatusGet db.sellerStatus a with
      | none => false
      | some row => row.status = SellerStatusResult.gated)
  else
    db.products.take (if mode = "100" then 100 else 200)

/-- `BATCH_SIZE` from `asinProcessor.worker.ts`. -/
def BATCH_SIZE : Nat := 5

/-- Structural worker for `chunksOf`: the fuel bounds the number of
chunks (one chunk consumes at least one element, so `l.length` fuel is
always enough). -/
def chunksOfGo (n : Nat) : Nat → List String → List (List String)
  | _, [] => []
  | 0, _ => []
  | fuel + 1, a :: rest =>
      (a :: rest.take (n - 1)) :: chunksOfGo n fuel (rest.drop (n - 1))

/-- The worker's `for (let i = 0; i < asins.length; i += BATCH_SIZE)`
slicing: consecutive chunks of `BATCH_SIZE` items (the last may be
shorter). -/
def chunksOf (n : Nat) (l : List String) : List (List String) :=
  chunksOfGo n l.length l

/-- The per-ASIN closure inside the worker's `Promise.all` (lines 37–55):
call the client (which, per `checkAsinEligibility`, always returns a
status and never throws), then upsert `{status, checked_at: now}`.  The
catch branch — skip the upsert on a thrown per-item error — is unreachable
for lookup failures because the client returns instead of throwing; DB
errors are not modelled. -/
def processOneAsin (db : Db) (asin : String) (attempts : List ApiAttempt)
    (now : Nat) : Db :=
  let status := checkAsinEligibility attempts MAX_RETRIES
  { db with sellerStatus :=
      sellerStatusUpsert db.sellerStatus asin { status := status, checkedAt := some now } }

/-- `processAsinJob` (`asinProcessor.worker.ts` lines 24–76): iterate the
chunks of `BATCH_SIZE`; for every item run the lookup-and-upsert closure,
increment the shared `processed` counter and publish progress; after the
loop mark the job completed.  The loop body contains no read of the cancel
flag.  Returns the final Redis state, the final DB, and the number of
items dispatched. -/
def processAsinJob (r : RedisState) (db : Db) (jobId : String)
    (asins : List String) (attemptsOf : String → List ApiAttempt) (now : Nat) :
    RedisState × Db × Nat :=
  let totalCount := asins.length
  let step := fun (acc : RedisState × Db × Nat) (asin : String) =>
    let db2 := processOneAsin acc.2.1 asin (attemptsOf asin) now
    let p2 := acc.2.2 + 1
    (updateJobProgress acc.1 jobId p2 totalCount, db2, p2)
  let final := (chunksOf BATCH_SIZE asins).foldl
    (fun acc batch => batch.foldl step acc) (r, db, 0)
  (markJobCompleted final.1 jobId, final.2.1, final.2.2)

/-! ## Error taxonomy (`middleware/errorHandler.ts`) and `startProcessing` -/

/-- An error thrown by a service/controller: either an `AppError`
carrying an HTTP status code, or a plain `Error` with only a message. -/
inductive ThrownError where
  | appError (statusCode : Nat) (message : String)
  | genericError (message : String)
  deriving Repr, DecidableEq

/-- Decidable equality of `Except` results, so that service outcomes can
be compared concretely. -/
instance {ε α : Type} [DecidableEq ε] [DecidableEq α] : DecidableEq (Except ε α) := fun
  | .error a, .error b =>
      if h : a = b then isTrue (by rw [h]) else isFalse (fun he => h (by cases he; rfl))
  | .error _, .ok _ => isFalse (fun he => by cases he)
  | .ok _, .error _ => isFalse (fun he => by cases he)
  | .ok a, .ok b =>
      if h : a = b then isTrue (by rw [h]) else isFalse (fun he => h (by cases he; rfl))

/-- The HTTP status the `errorHandler` middleware maps a thrown error to:
an `AppError` keeps its status code; every other error becomes a 500
"Internal server error" (the Prisma branch does not apply to these
errors). -/
def errorHandlerStatus : ThrownError → Nat
  | .appError statusCode _ => statusCode
  | .genericError _ => 500

/-- Whether a thrown error is a distinctly labeled HTTP conflict (the
taxonomy's only way to label a conflict so that the error handler reports
something other than a generic 500): an `AppError` with status 409. -/
def isConflictLabeled : ThrownError → Bool
  | .appError 409 _ => true
  | _ => false

/-- The message of `startProcessing`'s double-run rejection. -/
def alreadyRunningMsg : String :=
  "A processing job is already running. Please wait for it to complete."

/-- `startProcessing` (`processing.service.ts` lines 33–76), sequential
semantics.  The fresh UUID is supplied as `newJobId` (generated only after
the conflict and empty-set checks pass in the source; the returned
`Except` records whether an id was issued at all).  Faithful order:
read `ACTIVE_JOB_KEY`; if it points at a job whose document says
`"running"`, throw the plain `Error`; then query the candidate ASINs;
if empty, throw; otherwise write the initial status document, write the
active pointer and enqueue (queueing is outside the model). -/
def startProcessing (r : RedisState) (db : Db) (mode : String) (newJobId : String) :
    RedisState × Except ThrownError (String × Nat) :=
  let conflict :=
    match r.active with
    | none => false
    | some activeJobId =>
        match getJobStatus r activeJobId with
        | none => false
        | some st => st.status = "running"
  if conflict then
    (r, .error (.genericError alreadyRunningMsg))
  else
    let products := findAsinsForProcessing db mode
    if products.isEmpty then
      (r, .error (.genericError "No ASINs found for the selected processing mode."))
    else
      let initial : JobStatusRec :=
        { jobId := newJobId, status := "running", total := products.length,
          processed := 0, percentage := 0, error := none, completedAtSet := false,
          asins := products }
      ({ r with store := storeSet r.store newJobId initial, active := some newJobId },
       .ok (newJobId, products.length))

/-! ## Interleaved slot acquisition (for the concurrency claim)

`startProcessing`'s guard is a Redis `GET` of the active pointer followed —
only after the candidate query — by a plain `SETEX`, not a `SET NX`.  To
examine two simultaneous callers, the Redis operations of one call are
split into atomic steps and two callers are stepped under an explicit
schedule.  Each step performs exactly one Redis command (the conflict
decision after the status `GET` is pure). -/

/-- Progress of one in-flight `startProcessing` call. -/
inductive Phase where
  | ready
  | readActive (seen : Option String)
  | willWrite
  | wroteStatus
  | succeeded
  | conflicted
  deriving Repr, DecidableEq

/-- One in-flight caller: its pre-generated job id, its candidate count
and its control point. -/
structure Caller where
  jobId : String
  total : Nat
  phase : Phase
  deriving Repr, DecidableEq

/-- One atomic step of a caller against the shared Redis state:
`ready` performs the `GET` of `ACTIVE_JOB_KEY`; `readActive` performs the
status `GET` and decides; `willWrite` performs the status `SETEX`;
`wroteStatus` performs the `SETEX` of `ACTIVE_JOB_KEY`.  Terminal phases
are stutter steps. -/
def callerStep (r : RedisState) (c : Caller) : RedisState × Caller :=
  match c.phase with
  | .ready => (r, { c with phase := .readActive r.active })
  | .readActive seen =>
      let conflict :=
        match seen with
        | none => false
        | some activeJobId =>
            match getJobStatus r activeJobId with
            | none => false
            | some st => st.status = "running"
      (r, { c with phase := if conflict then .conflicted else .willWrite })
  | .willWrite =>
      let initial : JobStatusRec :=
        { jobId := c.jobId, status := "running", total := c.total,
          processed := 0, percentage := 0, error := none, completedAtSet := false,
          asins := [] }
      ({ r with store := storeSet r.store c.jobId initial }, { c with phase := .wroteStatus })
  | .wroteStatus => ({ r with active := some c.jobId }, { c with phase := .succeeded })
  | .succeeded => (r, c)
  | .conflicted => (r, c)

/-- Run two callers under a schedule: `true` steps the first caller,
`false` the second. -/
def runSchedule : List Bool → RedisState → Caller → Caller →
    RedisState × Caller × Caller
  | [], r, a, b => (r, a, b)
  | true :: rest, r, a, b =>
      let s := callerStep r a
      runSchedule rest s.1 s.2 b
  | false :: rest, r, a, b =>
      let s := callerStep r b
      runSchedule rest s.1 a s.2

/-! ## CSV field coercion (`keepaCsvParser.ts`)

String primitives are modelled over `List Char`:  JS `trim`, `toLowerCase`
and regex character classes act per character. -/

/-- JS `String.prototype.trim`: drop leading and trailing whitespace. -/
def trimChars (cs : List Char) : List Char :=
  ((cs.dropWhile Char.isWhitespace).reverse.dropWhile Char.isWhitespace).reverse

/-- JS `trim` packaged on `String`. -/
def jsTrim (s : String) : String := String.mk (trimChars s.data)

/-- JS `toLowerCase` (ASCII suffices for the vocabulary involved). -/
def jsToLower (s : String) : String := String.mk (s.data.map Char.toLower)

/-- Accumulate a run of decimal digits; `none` on any non-digit. -/
def digitRunAux : Nat → List Char → Option Nat
  | acc, [] => some acc
  | acc, c :: rest =>
      if c.isDigit then digitRunAux (acc * 10 + (c.toNat - 48)) rest else none

/-- JS `Number` on an unsigned decimal literal: an integer part and an
optional fractional part around a single dot, at least one digit overall
(`"5."`, `".5"` are numbers; `"."`, `""`, a second dot, or any non-digit
is `NaN`).  The inputs reaching this point contain only digits, dots and
minus signs (see `parseNumeric`), so exponents/hex are out of scope. -/
def jsUnsigned (cs : List Char) : Option ℚ :=
  let ip := cs.takeWhile (fun c => ¬ c = '.')
  match cs.dropWhile (fun c => ¬ c = '.') with
  | [] => if ip.isEmpty then none else (digitRunAux 0 ip).map (fun v => (v : ℚ))
  | _ :: fp =>
      if fp.contains '.' then none
      else if ip.isEmpty && fp.isEmpty then none
      else
        match digitRunAux 0 ip, digitRunAux 0 fp with
        | some i, some f => some ((i : ℚ) + (f : ℚ) / (10 : ℚ) ^ fp.length)
        | _, _ => none

/-- JS `Number(string)` restricted to the strings `parseNumeric` can
produce: whitespace-trimmed; empty string is `0`; a single leading minus
negates; `none` stands for `NaN`. -/
def jsNumber (s : String) : Option ℚ :=
  match trimChars s.data with
  | [] => some 0
  | '-' :: rest => (jsUnsigned rest).map (fun q => -q)
  | cs => jsUnsigned cs

/-- The `replace(/[^0-9,.-]/g, "")` sanitisation. -/
def sanitizedNumericChars (cs : List Char) : List Char :=
  cs.filter (fun c => c.isDigit || c = ',' || c = '.' || c = '-')

/-- With both separators present, `lastIndexOf(",") > lastIndexOf(".")`
is equivalent to the last separator being a comma. -/
def lastSeparatorIsComma (cs : List Char) : Bool :=
  match cs.reverse.find? (fun c => c = ',' || c = '.') with
  | some c => c = ','
  | none => false

/-- `parseNumeric` (`keepaCsvParser.ts` lines 296–325): strip whitespace,
drop everything but digits and `,.-`, then decide the decimal separator —
mixed separators: the one appearing last is decimal and the other is
stripped as grouping; commas only: comma is decimal; otherwise unchanged —
and finally `Number(...)`.  `none` models `NaN`. -/
def parseNumeric (raw : String) : Option ℚ :=
  let compact := trimChars (raw.data.filter (fun c => ¬ c.isWhitespace))
  if compact.isEmpty then none
  else
    let sanitized := sanitizedNumericChars compact
    if sanitized.isEmpty then none
    else
      let commaCount := (sanitized.filter (fun c => c = ',')).length
      let dotCount := (sanitized.filter (fun c => c = '.')).length
      let normalized :=
        if 0 < commaCount ∧ 0 < dotCount then
          if lastSeparatorIsComma sanitized then
            (sanitized.filter (fun c => ¬ c = '.')).map (fun c => if c = ',' then '.' else c)
          else
            sanitized.filter (fun c => ¬ c = ',')
        else if 0 < commaCount then
          sanitized.map (fun c => if c = ',' then '.' else c)
        else sanitized
      jsNumber (String.mk normalized)

/-- A coerced field value; `null` doubles as SQL `NULL` downstream. -/
inductive ParsedVal where
  | null
  | str (s : String)
  | num (q : ℚ)
  | bool (b : Bool)
  deriving Repr, DecidableEq

/-- The declared-numeric fields (`keepaCsvParser.ts` lines 256–264). -/
def numericFields : List String :=
  ["sales_rank_current", "sales_rank_avg_90d", "sales_rank_drop_90d",
   "bought_past_month", "rating", "rating_count", "rating_count_drop_90d",
   "buybox_price", "buybox_price_avg_90d", "buybox_price_drop_90d",
   "buybox_price_lowest", "buybox_price_highest", "buybox_stock",
   "amazon_share_180d", "buybox_winner_count_90d", "referral_fee",
   "offer_count_total", "new_offer_count_current", "new_offer_count_avg_90d",
   "package_dimension_cm3", "package_weight_g", "package_quantity"]

/-- The declared-boolean fields. -/
def booleanFields : List String := ["is_hazmat", "is_heat_sensitive"]

/-- `parseValue` (`keepaCsvParser.ts` lines 250–283): sentinels first,
then booleans (truthy vocabulary: case-insensitive yes/true, exact "1"),
then numerics via `parseNumeric` with `NaN ↦ null`, then the
first-of-semicolon-list rule for `image_url`, else a trimmed string. -/
def parseValue (field : String) (raw : String) : ParsedVal :=
  if raw = "" ∨ raw = "N/A" ∨ raw = "-" then .null
  else if booleanFields.contains field then
    .bool (jsToLower raw = "yes" || jsToLower raw = "true" || raw = "1")
  else if numericFields.contains field then
    match parseNumeric raw with
    | none => .null
    | some q => .num q
  else if field = "image_url" then
    .str (String.mk (trimChars (raw.data.takeWhile (fun c => ¬ c = ';'))))
  else
    .str (jsTrim raw)

/-- `NORMALIZED_KEEPA_FIELD_MAP`: the Keepa header map keyed by
`normalizeHeader` of each header (for these headers normalisation is
plain lower-casing: they carry no emoji, BOM or irregular spacing). -/
def NORMALIZED_FIELD_PAIRS : List (String × String) :=
  [("asin", "asin"),
   ("sales rank: current", "sales_rank_current"),
   ("sales rank: 90 days avg.", "sales_rank_avg_90d"),
   ("sales rank: 90 days drop %", "sales_rank_drop_90d"),
   ("bought in past month", "bought_past_month"),
   ("reviews: rating", "rating"),
   ("reviews: rating count", "rating_count"),
   ("reviews: rating count - 90 days drop %", "rating_count_drop_90d"),
   ("buy box: current", "buybox_price"),
   ("buy box: 90 days avg.", "buybox_price_avg_90d"),
   ("buy box: 90 days drop %", "buybox_price_drop_90d"),
   ("buy box: lowest", "buybox_price_lowest"),
   ("buy box: highest", "buybox_price_highest"),
   ("buy box: stock", "buybox_stock"),
   ("buy box: % amazon 180 days", "amazon_share_180d"),
   ("buy box: winner count 90 days", "buybox_winner_count_90d"),
   ("referral fee based on current buy box price", "referral_fee"),
   ("total offer count", "offer_count_total"),
   ("new offer count: current", "new_offer_count_current"),
   ("new offer count: 90 days avg.", "new_offer_count_avg_90d"),
   ("categories: root", "category_root"),
   ("categories: sub", "category_sub"),
   ("categories: tree", "category_tree"),
   ("brand", "brand"),
   ("release date", "release_date"),
   ("package: dimension (cm³)", "package_dimension_cm3"),
   ("package: weight (g)", "package_weight_g"),
   ("package: quantity", "package_quantity"),
   ("is hazmat", "is_hazmat"),
   ("is heat sensitive", "is_heat_sensitive"),
   ("url: amazon", "amazon_url"),
   ("image", "image_url")]

/-- Lookup of a normalised header in a row. -/
def rowGet (row : List (String × String)) (k : String) : Option String :=
  (row.find? (fun p => p.1 = k)).map (fun p => p.2)

/-- Lookup of a coerced field in a built product object. -/
def productGet (product : List (String × ParsedVal)) (field : String) :
    Option ParsedVal :=
  (product.find? (fun p => p.1 = field)).map (fun p => p.2)

/-- JS falsiness of `product.asin` (`!product.asin`): absent, `null`,
empty string, zero or `false`. -/
def isFalsyVal : Option ParsedVal → Bool
  | none => true
  | some ParsedVal.null => true
  | some (ParsedVal.str s) => s == ""
  | some (ParsedVal.num q) => q == 0
  | some (ParsedVal.bool b) => !b

/-- The only row-level error reason the parser ever emits. -/
def ROW_ERROR_MISSING_ASIN : String := "Missing ASIN"

/-- One iteration of `parseKeepaCSV`'s row loop (normalised-header form):
a row is an error exactly when its ASIN is blank (or coerces falsy);
otherwise every known header's value is coerced by `parseValue` into the
product object.  No other condition produces a row error. -/
def processRow (row : List (String × String)) :
    Except String (List (String × ParsedVal)) :=
  let rawAsin := (rowGet row "asin").getD ""
  if jsTrim rawAsin = "" then .error ROW_ERROR_MISSING_ASIN
  else
    let product := NORMALIZED_FIELD_PAIRS.foldl (fun acc pr =>
      match rowGet row pr.1 with
      | some v => acc ++ [(pr.2, parseValue pr.2 v)]
      | none => acc) []
    if isFalsyVal (productGet product "asin") then .error ROW_ERROR_MISSING_ASIN
    else .ok product

/-! ## Bulk upsert (`products.repository.ts`, raw-SQL `upsertMany`) -/

/-- `UPSERT_COLUMNS` (`products.repository.ts` lines 192–202). -/
def UPSERT_COLUMNS : List String :=
  ["asin", "sales_rank_current", "sales_rank_avg_90d", "sales_rank_drop_90d",
   "bought_past_month", "rating", "rating_count", "rating_count_drop_90d",
   "buybox_price", "buybox_price_avg_90d", "buybox_price_drop_90d",
   "buybox_price_lowest", "buybox_price_highest", "buybox_stock",
   "amazon_share_180d", "buybox_winner_count_90d", "referral_fee",
   "offer_count_total", "new_offer_count_current", "new_offer_count_avg_90d",
   "category_root", "category_sub", "category_tree", "brand", "release_date",
   "package_dimension_cm3", "package_weight_g", "package_quantity",
   "is_hazmat", "is_heat_sensitive", "amazon_url", "image_url"]

/-- An incoming parsed import record: the mandatory identifier plus the
present fields.  A field can be present with value `null` (parsed
sentinel) or absent entirely; `record[col] ?? null` conflates the two. -/
structure IncomingRecord where
  asin : String
  fields : List (String × ParsedVal)
  deriving Repr, DecidableEq

/-- `record[col] ?? null`: the SQL parameter pushed for a column. -/
def recordGet (rec : IncomingRecord) (col : String) : ParsedVal :=
  match (rec.fields.find? (fun p => p.1 = col)).map (fun p => p.2) with
  | none => .null
  | some v => v

/-- `buildAmazonUrl` (`products.repository.ts`). -/
def buildAmazonUrl (asin : String) : String :=
  "https://www.amazon.com/dp/" ++ asin ++ "?psc=1"

/-- `normalizeProductData`: `amazon_url = data.amazon_url?.trim() ||
buildAmazonUrl(asin)` — a present, non-blank string survives trimmed,
anything else is replaced by the canonical URL. -/
def normalizedAmazonUrl (rec : IncomingRecord) : ParsedVal :=
  match (rec.fields.find? (fun p => p.1 = "amazon_url")).map (fun p => p.2) with
  | some (ParsedVal.str s) =>
      if jsTrim s = "" then .str (buildAmazonUrl rec.asin) else .str (jsTrim s)
  | _ => .str (buildAmazonUrl rec.asin)

/-- The value the INSERT supplies for one column of one record, after
`normalizeProductData`. -/
def incomingCell (rec : IncomingRecord) (col : String) : ParsedVal :=
  if col = "asin" then .str rec.asin
  else if col = "amazon_url" then normalizedAmazonUrl rec
  else recordGet rec col

/-- `ON CONFLICT (asin) DO UPDATE SET c = EXCLUDED.c, ...` over every
upsert column (`asin` is overwritten with the identical conflicting key):
the post-upsert row.  Columns outside `UPSERT_COLUMNS` (e.g. `notes`)
keep their old cell. -/
def applyUpsert (old : String → ParsedVal) (rec : IncomingRecord) :
    String → ParsedVal :=
  fun col => if UPSERT_COLUMNS.contains col then incomingCell rec col else old col

/-- Lookup of a product row by asin in the products table. -/
def productsGet (tbl : List (String × (String → ParsedVal))) (asin : String) :
    Option (String → ParsedVal) :=
  (tbl.find? (fun p => p.1 = asin)).map (fun p => p.2)

/-- `upsertMany` (raw-SQL variant, lines 285–307): each record either
inserts a fresh row (unsupplied columns `NULL`) or overwrites every
upsert column of the existing row.  A multi-row statement applies its
records in order. -/
def upsertMany (tbl : List (String × (String → ParsedVal)))
    (records : List IncomingRecord) : List (String × (String → ParsedVal)) :=
  records.foldl (fun t rec =>
    match productsGet t rec.asin with
    | some old =>
        (rec.asin, applyUpsert old rec) :: t.filter (fun p => ¬ p.1 = rec.asin)
    | none =>
        (rec.asin, applyUpsert (fun _ => ParsedVal.null) rec) :: t) tbl

/-! ## Observation helpers used by the statements below -/

/-- Whether the row loop classified a row as an error. -/
def isRowError (e : Except String (List (String × ParsedVal))) : Bool :=
  match e with
  | .error _ => true
  | .ok _ => false

/-- The `percentage` field of a stored job document. -/
def jobStatusPercentage (r : RedisState) (jobId : String) : Option ℤ :=
  (getJobStatus r jobId).map (fun st => st.percentage)

/-- Modelled from the spec: the documented percentage formula
`round(processed / total * 100)` with the .5 boundary rounding up. -/
def specPercentage (processed total : Nat) : ℤ :=
  ⌊(processed : ℚ) / (total : ℚ) * 100 + 1 / 2⌋

/-- The stored cell of one column of one product, for stating upsert
effects without comparing whole row functions. -/
def storedCell (tbl : List (String × (String → ParsedVal))) (asin col : String) :
    Option ParsedVal :=
  (productsGet tbl asin).map (fun row => row col)

/-! ## Helper lemmas -/

theorem storeGet_storeSet_self (s : List (String × JobStatusRec)) (k : String)
    (v : JobStatusRec) : storeGet (storeSet s k v) k = some v := by
  simp [storeGet, storeSet]

/-! ## Claim C1 -/

/-- C1 counterexample: a lookup whose four attempts (the initial try plus
`MAX_RETRIES` retries) are all HTTP 429 exhausts the retries, and
`checkAsinEligibility` returns the domain status `unknown` to its caller —
no definitive failure is surfaced, refuting the claim at this input. -/
theorem checkAsinEligibility_exhausted_cex :
    checkAsinEligibility
      [.httpError (some 429), .httpError (some 429),
       .httpError (some 429), .httpError (some 429)] MAX_RETRIES =
      SellerStatusResult.unknown := by decide

/-- C1 (amended): whenever every attempt fails with a retryable response
(rate limit 429 or a server error ≥ 500), `checkAsinEligibility` returns
the domain status `unknown` to its caller; it never surfaces a distinct
failure for exhausted retries. -/
theorem checkAsinEligibility_exhausted_returns_unknown
    (attempts : List ApiAttempt) (retries : Nat)
    (h : ∀ a ∈ attempts, isRetryableFailure a = true) :
    checkAsinEligibility attempts retries = SellerStatusResult.unknown := by
  induction attempts generalizing retries with
  | nil => rfl
  | cons a rest ih =>
      cases a with
      | success restrictions =>
          have := h _ (List.mem_cons_self _ _)
          simp [isRetryableFailure] at this
      | httpError statusCode =>
          simp only [checkAsinEligibility]
          split
          · exact ih _ (fun x hx => h x (List.mem_cons_of_mem _ hx))
          · rfl

/-- C1 witness: the amended statement applied to a concrete run whose
attempts are 429, 503, 429, 500. -/
theorem checkAsinEligibility_exhausted_returns_unknown_witness :
    checkAsinEligibility
      [.httpError (some 429), .httpError (some 503),
       .httpError (some 429), .httpError (some 500)] MAX_RETRIES =
      SellerStatusResult.unknown :=
  checkAsinEligibility_exhausted_returns_unknown _ MAX_RETRIES (by decide)

/-! ## Claim C9 -/

/-- C9 counterexample: with the two `startProcessing` calls interleaved
(both `GET ACTIVE_JOB_KEY` reads happen before either `SETEX`), BOTH
callers acquire the slot and start a job — the acquisition is a plain
get-then-set, not an atomic set-if-absent, so "exactly one caller
acquires" fails. -/
theorem slot_acquisition_two_winners_cex :
    (runSchedule [true, false, true, false, true, false, true, false]
        { active := none, store := [], cancel := [] }
        { jobId := "A", total := 3, phase := .ready }
        { jobId := "B", total := 3, phase := .ready }).2.1.phase =
      Phase.succeeded ∧
    (runSchedule [true, false, true, false, true, false, true, false]
        { active := none, store := [], cancel := [] }
        { jobId := "A", total := 3, phase := .ready }
        { jobId := "B", total := 3, phase := .ready }).2.2.phase =
      Phase.succeeded := by decide

/-- C9 (amended): the slot acquisition is a non-atomic read-check-then-write.
When the two start requests are serialized (the second begins after the
first finished), exactly one caller acquires — the second observes the
first job's `"running"` status during its check and rejects; but under an
interleaved schedule both callers acquire and start jobs. -/
theorem slot_acquisition_serialized_one_winner :
    ((runSchedule [true, true, true, true, false, false, false, false]
        { active := none, store := [], cancel := [] }
        { jobId := "A", total := 3, phase := .ready }
        { jobId := "B", total := 3, phase := .ready }).2.1.phase =
      Phase.succeeded ∧
     (runSchedule [true, true, true, true, false, false, false, false]
        { active := none, store := [], cancel := [] }
        { jobId := "A", total := 3, phase := .ready }
        { jobId := "B", total := 3, phase := .ready }).2.2.phase =
      Phase.conflicted) ∧
    ((runSchedule [false, true, false, true, false, true, false, true]
        { active := none, store := [], cancel := [] }
        { jobId := "A", total := 3, phase := .ready }
        { jobId := "B", total := 3, phase := .ready }).2.1.phase =
      Phase.succeeded ∧
     (runSchedule [false, true, false, true, false, true, false, true]
        { active := none, store := [], cancel := [] }
        { jobId := "A", total := 3, phase := .ready }
        { jobId := "B", total := 3, phase := .ready }).2.2.phase =
      Phase.succeeded) := by decide

/-! ## Claim C10 -/

/-- C10: for the declared-boolean fields `is_hazmat` and
`is_heat_sensitive`, the sentinels "" / "N/A" / "-" coerce to null;
otherwise the value is a Bool that is true exactly for case-insensitive
"yes", case-insensitive "true", or the exact string "1" — every other
token coerces to false, never to null; and an unrecognized boolean token
never makes the row an error (rows only error on a missing ASIN). -/
theorem parseValue_boolean_coercion :
    (∀ raw : String,
      parseValue "is_hazmat" raw =
        (if raw = "" ∨ raw = "N/A" ∨ raw = "-" then ParsedVal.null
         else ParsedVal.bool
           (jsToLower raw = "yes" || jsToLower raw = "true" || raw = "1"))) ∧
    (∀ raw : String,
      parseValue "is_heat_sensitive" raw =
        (if raw = "" ∨ raw = "N/A" ∨ raw = "-" then ParsedVal.null
         else ParsedVal.bool
           (jsToLower raw = "yes" || jsToLower raw = "true" || raw = "1"))) ∧
    parseValue "is_hazmat" "N/A" = ParsedVal.null ∧
    parseValue "is_hazmat" "YES" = ParsedVal.bool true ∧
    parseValue "is_heat_sensitive" "True" = ParsedVal.bool true ∧
    parseValue "is_hazmat" "1" = ParsedVal.bool true ∧
    parseValue "is_hazmat" "01" = ParsedVal.bool false ∧
    parseValue "is_heat_sensitive" "maybe" = ParsedVal.bool false ∧
    (∀ v : String,
      isRowError (processRow [("asin", "B0TEST"), ("is hazmat", v)]) = false) := by
  refine ⟨fun raw => rfl, fun raw => rfl, ?_, ?_, ?_, ?_, ?_, ?_, fun v => rfl⟩
  all_goals decide

/-! ## Claim C2 -/

/-- C2: evaluation at the failing input — a single-item job whose item's
four lookup attempts are all rate-limited (HTTP 429).  Because the client
returns `unknown` instead of surfacing a failure, the worker's success
path upserts `{status := unknown, checked_at := now}`, the job reaches
the terminal state "completed", and the item is NO LONGER returned by the
"all not yet checked" selection — contradicting the claim (and the
worker's own "do NOT update checked_at" comment). -/
theorem failed_lookup_writes_checked_timestamp :
    let r0 : RedisState :=
      { active := some "job1",
        store := [("job1",
          { jobId := "job1", status := "running", total := 1, processed := 0,
            percentage := 0, error := none, completedAtSet := false,
            asins := ["B0FAIL"] })],
        cancel := [] }
    let db0 : Db := { products := ["B0FAIL"], sellerStatus := [] }
    let out := processAsinJob r0 db0 "job1" ["B0FAIL"]
      (fun _ => [.httpError (some 429), .httpError (some 429),
                 .httpError (some 429), .httpError (some 429)]) 99
    findAsinsForProcessing db0 "unchecked" = ["B0FAIL"] ∧
    sellerStatusGet out.2.1.sellerStatus "B0FAIL" =
      some { status := SellerStatusResult.unknown, checkedAt := some 99 } ∧
    jobStatusField out.1 "job1" = some "completed" ∧
    findAsinsForProcessing out.2.1 "unchecked" = [] := by decide

/-! ## Claim C3 -/

/-- C3: evaluation at the failing input — a ten-item job (two chunks of
`BATCH_SIZE = 5`) whose cancel flag is set by `cancelJob` before any chunk
runs.  `processAsinJob` contains no `isJobCancelled` check: it dispatches
all ten items (the claim requires at most the five of the in-flight
chunk), marks the job "completed" rather than cancelled, and leaves the
cancel flag in place — contradicting the claim (and `cancelJob`'s own
"worker checks this between batches" comment). -/
theorem worker_never_observes_cancel_flag :
    let r0 : RedisState :=
      { active := some "job1",
        store := [("job1",
          { jobId := "job1", status := "running", total := 10, processed := 0,
            percentage := 0, error := none, completedAtSet := false,
            asins := ["A1", "A2", "A3", "A4", "A5", "A6", "A7", "A8", "A9", "A10"] })],
        cancel := [] }
    let r1 := (cancelJob r0).1
    let out := processAsinJob r1
      { products := ["A1", "A2", "A3", "A4", "A5", "A6", "A7", "A8", "A9", "A10"],
        sellerStatus := [] }
      "job1" ["A1", "A2", "A3", "A4", "A5", "A6", "A7", "A8", "A9", "A10"]
      (fun _ => [.success []]) 7
    isJobCancelled r1 "job1" = true ∧
    out.2.2 = 10 ∧
    jobStatusField out.1 "job1" = some "completed" ∧
    isJobCancelled out.1 "job1" = true := by decide

/-! ## Claim C4 -/

/-- C4 counterexample: starting from a running job, `markJobFailed`
reaches the terminal status "failed", and a subsequent `markJobCompleted`
under the same job id overwrites it to "completed" — a transition out of
a terminal state, refuting the claim at this input. -/
theorem terminal_status_overwritten_cex :
    let r0 : RedisState :=
      { active := some "j",
        store := [("j",
          { jobId := "j", status := "running", total := 2, processed := 0,
            percentage := 0, error := none, completedAtSet := false, asins := [] })],
        cancel := [] }
    let r1 := markJobFailed r0 "j" "boom"
    jobStatusField r1 "j" = some "failed" ∧
    jobStatusField (markJobCompleted r1 "j") "j" = some "completed" := by decide

/-- Helper: a state whose document under `jobId` was just overwritten with
a record carrying a legal status is well-formed. -/
theorem statusWF_set (r r2 : RedisState) (jobId : String) (v : JobStatusRec)
    (hstore : r2.store = storeSet r.store jobId v)
    (hv : v.status = "running" ∨ v.status = "completed" ∨ v.status = "failed") :
    statusWF r2 jobId := by
  unfold statusWF jobStatusField getJobStatus
  rw [hstore, storeGet_storeSet_self]
  simpa using hv

/-- Helper: each single mutator keeps the status field inside
running/completed/failed. -/
theorem statusWF_applyMutation (r : RedisState) (jobId : String) (m : Mutation)
    (h : statusWF r jobId) : statusWF (applyMutation r jobId m) jobId := by
  have hst : ∀ st, storeGet r.store jobId = some st →
      st.status = "running" ∨ st.status = "completed" ∨ st.status = "failed" := by
    intro st heq
    unfold statusWF jobStatusField getJobStatus at h
    rw [heq] at h
    simpa using h
  cases m with
  | progress p t =>
      unfold applyMutation updateJobProgress
      cases heq : storeGet r.store jobId with
      | none => exact h
      | some st => exact statusWF_set r _ jobId _ rfl (hst st heq)
  | complete =>
      unfold applyMutation markJobCompleted
      cases heq : storeGet r.store jobId with
      | none => exact h
      | some st => exact statusWF_set r _ jobId _ rfl (Or.inr (Or.inl rfl))
  | fail e =>
      unfold applyMutation markJobFailed
      cases heq : storeGet r.store jobId with
      | none => exact h
      | some st => exact statusWF_set r _ jobId _ rfl (Or.inr (Or.inr rfl))
  | cancel p t =>
      unfold applyMutation markJobCancelled
      cases heq : storeGet r.store jobId with
      | none => exact h
      | some st => exact statusWF_set r _ jobId _ rfl (Or.inr (Or.inr rfl))

/-- C4 (amended): under arbitrary sequences of the four mutators the
status field only ever holds running, completed, or failed — but terminal
statuses are not sticky: `markJobCompleted` unconditionally rewrites the
status to "completed" and `markJobFailed`/`markJobCancelled` to "failed"
(cancellation is recorded as "failed"), whatever the stored status was;
only `updateJobProgress` leaves the status unchanged. -/
theorem job_status_confined_but_not_monotone
    (r : RedisState) (jobId : String) (ms : List Mutation) (e : String) (p t : Nat)
    (h : statusWF r jobId) :
    statusWF (applyMutations r jobId ms) jobId ∧
    ((storeGet r.store jobId).isSome = true →
      jobStatusField (markJobCompleted r jobId) jobId = some "completed" ∧
      jobStatusField (markJobFailed r jobId e) jobId = some "failed" ∧
      jobStatusField (markJobCancelled r jobId p t) jobId = some "failed" ∧
      jobStatusField (updateJobProgress r jobId p t) jobId = jobStatusField r jobId) := by
  constructor
  · induction ms generalizing r with
    | nil => exact h
    | cons m rest ih => exact ih _ (statusWF_applyMutation r jobId m h)
  · intro hsome
    obtain ⟨st, heq⟩ := Option.isSome_iff_exists.mp hsome
    refine ⟨?_, ?_, ?_, ?_⟩
    · unfold markJobCompleted jobStatusField getJobStatus
      rw [heq]
      simp [storeGet_storeSet_self]
    · unfold markJobFailed jobStatusField getJobStatus
      rw [heq]
      simp [storeGet_storeSet_self]
    · unfold markJobCancelled jobStatusField getJobStatus
      rw [heq]
      simp [storeGet_storeSet_self]
    · unfold updateJobProgress jobStatusField getJobStatus
      rw [heq]
      simp [storeGet_storeSet_self]

/-- C4 witness: the amended statement applied to a concrete running job
and the mutator sequence fail-then-complete-then-progress. -/
theorem job_status_confined_but_not_monotone_witness :
    let r0 : RedisState :=
      { active := some "jw",
        store := [("jw",
          { jobId := "jw", status := "running", total := 4, processed := 0,
            percentage := 0, error := none, completedAtSet := false, asins := [] })],
        cancel := [] }
    statusWF (applyMutations r0 "jw"
      [Mutation.fail "x", Mutation.complete, Mutation.progress 2 4]) "jw" ∧
    ((storeGet r0.store "jw").isSome = true →
      jobStatusField (markJobCompleted r0 "jw") "jw" = some "completed" ∧
      jobStatusField (markJobFailed r0 "jw" "oops") "jw" = some "failed" ∧
      jobStatusField (markJobCancelled r0 "jw" 2 4) "jw" = some "failed" ∧
      jobStatusField (updateJobProgress r0 "jw" 2 4) "jw" = jobStatusField r0 "jw") :=
  job_status_confined_but_not_monotone _ "jw"
    [Mutation.fail "x", Mutation.complete, Mutation.progress 2 4] "oops" 2 4 (by decide)

/-! ## Claim C8 -/

/-- C8: the numeric coercion parses "1,234.56" and "1.234,56" both to
1234.56 and "1234" to 1234, deciding the decimal separator by whichever
of comma or dot appears last in the cleaned string, and a numeric cell's
locale format never makes the row an error (rows only error on a missing
ASIN; an unparsable numeric merely coerces to null). -/
theorem parseNumeric_mixed_locales :
    parseNumeric "1,234.56" = some (123456 / 100 : ℚ) ∧
    parseNumeric "1.234,56" = some (123456 / 100 : ℚ) ∧
    parseNumeric "1234" = some (1234 : ℚ) ∧
    parseValue "buybox_price" "1,234.56" = ParsedVal.num (123456 / 100 : ℚ) ∧
    parseValue "buybox_price" "1.234,56" = ParsedVal.num (123456 / 100 : ℚ) ∧
    (∀ v : String,
      isRowError (processRow [("asin", "B0TEST"), ("buy box: current", v)]) = false) := by
  have h1 : parseNumeric "1,234.56" =
      some (((1234 : ℕ) : ℚ) + ((56 : ℕ) : ℚ) / (10 : ℚ) ^ (2 : ℕ)) := rfl
  have h2 : parseNumeric "1.234,56" =
      some (((1234 : ℕ) : ℚ) + ((56 : ℕ) : ℚ) / (10 : ℚ) ^ (2 : ℕ)) := rfl
  have hv1 : parseValue "buybox_price" "1,234.56" =
      ParsedVal.num (((1234 : ℕ) : ℚ) + ((56 : ℕ) : ℚ) / (10 : ℚ) ^ (2 : ℕ)) := rfl
  have hv2 : parseValue "buybox_price" "1.234,56" =
      ParsedVal.num (((1234 : ℕ) : ℚ) + ((56 : ℕ) : ℚ) / (10 : ℚ) ^ (2 : ℕ)) := rfl
  have harith :
      (((1234 : ℕ) : ℚ) + ((56 : ℕ) : ℚ) / (10 : ℚ) ^ (2 : ℕ)) = (123456 / 100 : ℚ) := by
    norm_num
  refine ⟨?_, ?_, rfl, ?_, ?_, fun v => rfl⟩
  · rw [h1, harith]
  · rw [h2, harith]
  · rw [hv1, harith]
  · rw [hv2, harith]

/-! ## Claim C5 -/

/-- C5 counterexample: a stored row for "B0X" holds brand "Sony"; an
upsert of a record for the same identifier whose brand field is present
with value null leaves the stored brand as NULL — the incoming null
clobbers the previously stored value, refuting the claim at this input. -/
theorem upsert_null_clobbers_cex :
    storedCell
      [("B0X", fun col => if col = "brand" then ParsedVal.str "Sony" else ParsedVal.null)]
      "B0X" "brand" = some (ParsedVal.str "Sony") ∧
    storedCell
      (upsertMany
        [("B0X", fun col => if col = "brand" then ParsedVal.str "Sony" else ParsedVal.null)]
        [{ asin := "B0X", fields := [("brand", ParsedVal.null)] }])
      "B0X" "brand" = some ParsedVal.null := by
  exact ⟨rfl, rfl⟩

/-- C5 (amended): the upsert is NOT null-preserving.  For a record whose
identifier already exists, every mapped column other than the identifier
and the derived `amazon_url` is overwritten with the incoming value, so a
column whose incoming value is null or absent ends up NULL regardless of
what was stored (`amazon_url` is recomputed from the identifier rather
than preserved). -/
theorem upsertMany_null_overwrites
    (tbl : List (String × (String → ParsedVal))) (old : String → ParsedVal)
    (rec1 : IncomingRecord) (col : String)
    (hold : productsGet tbl rec1.asin = some old)
    (hcol : UPSERT_COLUMNS.contains col = true)
    (hkey : ¬ col = "asin") (hurl : ¬ col = "amazon_url")
    (hnull : recordGet rec1 col = ParsedVal.null) :
    storedCell (upsertMany tbl [rec1]) rec1.asin col = some ParsedVal.null := by
  have hmem : col ∈ UPSERT_COLUMNS := by simpa using hcol
  unfold upsertMany
  simp only [List.foldl]
  rw [hold]
  unfold storedCell productsGet
  simp [List.find?, applyUpsert, incomingCell, hmem, hkey, hurl, hnull]

/-- C5 witness: the amended statement applied to a record whose brand
field is absent entirely (the `?? null` path): the stored brand "x" is
clobbered to NULL. -/
theorem upsertMany_null_overwrites_witness :
    storedCell
      (upsertMany [("B0Y", fun _ => ParsedVal.str "x")]
        [{ asin := "B0Y", fields := [] }])
      "B0Y" "brand" = some ParsedVal.null :=
  upsertMany_null_overwrites [("B0Y", fun _ => ParsedVal.str "x")] _
    { asin := "B0Y", fields := [] } "brand" rfl (by decide) (by decide) (by decide) rfl

/-! ## Claim C6 -/

/-- C6 counterexample: with the active pointer at a running job,
`startProcessing` rejects with the plain generic `Error` ("A processing
job is already running…"), which the error-handler taxonomy maps to a
generic HTTP 500 — not a distinctly-labeled conflict error — refuting the
"distinct conflict error" part of the claim at this input (the no-write,
no-job-id parts do hold: the state is returned unchanged). -/
theorem startProcessing_conflict_generic_cex :
    startProcessing
      { active := some "j1",
        store := [("j1",
          { jobId := "j1", status := "running", total := 1, processed := 0,
            percentage := 0, error := none, completedAtSet := false,
            asins := ["B1"] })],
        cancel := [] }
      { products := ["B1"], sellerStatus := [] } "100" "fresh-id" =
      ({ active := some "j1",
         store := [("j1",
           { jobId := "j1", status := "running", total := 1, processed := 0,
             percentage := 0, error := none, completedAtSet := false,
             asins := ["B1"] })],
         cancel := [] },
       Except.error (ThrownError.genericError alreadyRunningMsg)) ∧
    isConflictLabeled (ThrownError.genericError alreadyRunningMsg) = false ∧
    errorHandlerStatus (ThrownError.genericError alreadyRunningMsg) = 500 := by decide

/-- C6 (amended): whenever the active pointer refers to a running job,
`startProcessing` fails with the plain generic already-running `Error`
(reported by the error handler as a 500, indistinguishable from an
internal failure, rather than a distinctly-labeled conflict), issues no
new job id, and writes no new job record or active pointer (the store is
returned unchanged). -/
theorem startProcessing_conflict_no_writes
    (r : RedisState) (db : Db) (mode newJobId activeJobId : String)
    (st : JobStatusRec)
    (hactive : r.active = some activeJobId)
    (hst : getJobStatus r activeJobId = some st)
    (hrun : st.status = "running") :
    startProcessing r db mode newJobId =
      (r, Except.error (ThrownError.genericError alreadyRunningMsg)) ∧
    errorHandlerStatus (ThrownError.genericError alreadyRunningMsg) = 500 ∧
    isConflictLabeled (ThrownError.genericError alreadyRunningMsg) = false := by
  refine ⟨?_, rfl, rfl⟩
  unfold startProcessing
  rw [hactive]
  simp only [hst, hrun]
  simp

/-- C6 witness: the amended statement applied to a concrete running job
and a start request in mode "unchecked". -/
theorem startProcessing_conflict_no_writes_witness :
    startProcessing
      { active := some "jr",
        store := [("jr",
          { jobId := "jr", status := "running", total := 3, processed := 1,
            percentage := 33, error := none, completedAtSet := false,
            asins := ["B1", "B2", "B3"] })],
        cancel := [] }
      { products := ["B9"], sellerStatus := [] } "unchecked" "next-id" =
      ({ active := some "jr",
         store := [("jr",
           { jobId := "jr", status := "running", total := 3, processed := 1,
             percentage := 33, error := none, completedAtSet := false,
             asins := ["B1", "B2", "B3"] })],
         cancel := [] },
       Except.error (ThrownError.genericError alreadyRunningMsg)) ∧
    errorHandlerStatus (ThrownError.genericError alreadyRunningMsg) = 500 ∧
    isConflictLabeled (ThrownError.genericError alreadyRunningMsg) = false :=
  startProcessing_conflict_no_writes _ _ "unchecked" "next-id" "jr" _ rfl rfl rfl

/-! ## Claim C7 -/

/-- C7: for every stored job and every progress write with `total ≥ 1`
and `processed ≤ total`, the stored percentage equals the spec formula
`round(processed / total * 100)` with the .5 boundary rounding up (equal,
in integers, to `(200·p + t) / (2·t)`), and the scenario points hold:
33/100 ↦ 33, 1/3 ↦ 33, 1/8 ↦ 13. -/
theorem updateJobProgress_percentage_rounds
    (r : RedisState) (jobId : String) (st : JobStatusRec) (p t : Nat)
    (hget : storeGet r.store jobId = some st) (ht : 1 ≤ t) (hp : p ≤ t) :
    jobStatusPercentage (updateJobProgress r jobId p t) jobId =
      some (specPercentage p t) ∧
    specPercentage p t = ((200 * p + t) / (2 * t) : ℕ) ∧
    computePercentage 33 100 = 33 ∧
    computePercentage 1 3 = 33 ∧
    computePercentage 1 8 = 13 := by
  refine ⟨?_, ?_, ?_, ?_, ?_⟩
  · unfold updateJobProgress jobStatusPercentage getJobStatus
    rw [hget]
    simp [storeGet_storeSet_self]
    rfl
  · have ht0 : (t : ℚ) ≠ 0 := Nat.cast_ne_zero.mpr (by omega)
    unfold specPercentage
    have heq : (p : ℚ) / (t : ℚ) * 100 + 1 / 2 =
        ((200 * p + t : ℕ) : ℚ) / ((2 * t : ℕ) : ℚ) := by
      push_cast
      field_simp
      ring
    rw [heq, Rat.floor_natCast_div_natCast]
    exact (Int.natCast_div _ _).symm
  · norm_num [computePercentage, mathRound]
  · norm_num [computePercentage, mathRound]
  · norm_num [computePercentage, mathRound]

/-- C7 witness: the statement applied to a concrete job with
processed = 1, total = 8. -/
theorem updateJobProgress_percentage_rounds_witness :
    jobStatusPercentage
      (updateJobProgress
        { active := some "jp",
          store := [("jp",
            { jobId := "jp", status := "running", total := 8, processed := 0,
              percentage := 0, error := none, completedAtSet := false,
              asins := [] })],
          cancel := [] } "jp" 1 8) "jp" = some (specPercentage 1 8) ∧
    specPercentage 1 8 = ((200 * 1 + 8) / (2 * 8) : ℕ) ∧
    computePercentage 33 100 = 33 ∧
    computePercentage 1 3 = 33 ∧
    computePercentage 1 8 = 13 :=
  updateJobProgress_percentage_rounds _ "jp" _ 1 8 rfl (by omega) (by omega)

end AsinManager
